import Mathlib

/-!
Shallow embedding of the urbansdk aggregation and spatial-filter query layer.

The embedded code comes from:
* `app/services/aggregate.py` — the five service operations
  (`get_average_speed_by_day_period`, `get_average_speed_by_link_day_period`,
  `get_link_in_box_day_period`, `get_links_with_geometries_in_box_day_period`,
  `get_links_geometry_roadname_speed_by_day_period`);
* `app/helpers/periods.py` — the day-name mapping and its conversions;
* `app/models/spatial_filter.py` — the bounding-box validator;
* `app/models/aggregate.py`, `app/routers/aggregate_link.py` — the day-name
  conversions used by the boundary layer.

The database is modelled as an explicit state: a list of observation rows
(table `duval`) and a list of segment-metadata rows (table `link`).  SQL
numerics are modelled as exact rationals.  A segment geometry is modelled as
the list of its points, and `ST_Intersects(geometry, envelope)` as "some point
of the geometry lies in the envelope"; a SQL NULL geometry never intersects.
Python `round(x, nd)` is modelled as decimal round-half-to-even, the
documented semantics of the builtin.  Fallible operations return
`Except String`; a raised `ValueError` is an `Except.error` carrying the
message from the source.
-/

namespace UrbanSDK

/-- A geometry, modelled as the list of its points (longitude, latitude). -/
abbrev Geo := List (ℚ × ℚ)

/-- One row of the observation table `duval`
(`app/db/database.py`): the columns the query layer reads, plus `freeflow`,
which exists in the table but is never selected by any query. -/
structure SpeedRecord where
  link_id : Int
  day_of_week : Int
  period : Int
  average_speed : ℚ
  freeflow : Option ℚ
deriving Repr, DecidableEq

/-- One row of the segment-metadata table `link`: the columns the query layer
reads, plus `length`, which exists in the richer schema but is never selected
by any query. -/
structure LinkInfo where
  link_id : Int
  road_name : Option String
  geometry : Option Geo
  length : Option ℚ
deriving Repr, DecidableEq

/-- The database state seen by the query layer. -/
structure DB where
  speed_records : List SpeedRecord
  links : List LinkInfo
deriving Repr, DecidableEq

/-- Decimal round-half-to-even to an integer, the documented behaviour of
Python's builtin `round`. -/
def roundHalfEven (q : ℚ) : Int :=
  let f : Int := Rat.floor q
  if q - f < 1/2 then f
  else if (1:ℚ)/2 < q - f then f + 1
  else if f % 2 = 0 then f else f + 1

/-- Python `round(x, 2)`. -/
def round2 (q : ℚ) : ℚ := (roundHalfEven (q * 100) : ℚ) / 100

/-- `ST_MakeEnvelope(west, south, east, north)` membership: the point `p` lies
in the closed rectangle. -/
def inBox (p : ℚ × ℚ) (west south east north : ℚ) : Bool :=
  decide (west ≤ p.1 ∧ p.1 ≤ east ∧ south ≤ p.2 ∧ p.2 ≤ north)

/-- `ST_Intersects(geometry, ST_MakeEnvelope(...))`: some point of the
geometry lies in the envelope; a NULL geometry yields no match. -/
def intersectsBox (g : Option Geo) (west south east north : ℚ) : Bool :=
  match g with
  | none => false
  | some pts => pts.any (fun p => inBox p west south east north)

/-- The join `duval JOIN link ON duval.link_id = link.link_id` filtered by
`duval.day_of_week = day AND duval.period = period` — the FROM/WHERE part
shared by the two aggregate queries of
`get_average_speed_by_day_period` and
`get_links_geometry_roadname_speed_by_day_period`. -/
def matchRows (db : DB) (day period : Int) : List (SpeedRecord × LinkInfo) :=
  (db.speed_records.filter (fun r => r.day_of_week == day && r.period == period)).flatMap
    (fun r => (db.links.filter (fun l => l.link_id == r.link_id)).map (fun l => (r, l)))

/-- The GROUP BY key of the global aggregate query:
`(link_id, day_of_week, period, road_name, geometry)`. -/
structure GroupKey where
  link_id : Int
  day_of_week : Int
  period : Int
  road_name : Option String
  geometry : Option Geo
deriving Repr, DecidableEq

/-- The group key of a joined row. -/
def keyOf (rl : SpeedRecord × LinkInfo) : GroupKey :=
  ⟨rl.1.link_id, rl.1.day_of_week, rl.1.period, rl.2.road_name, rl.2.geometry⟩

/-- Ordering of group keys used by `ORDER BY link_id`. -/
def keyLe (a b : GroupKey) : Prop := a.link_id ≤ b.link_id

instance : DecidableRel keyLe := fun a b => inferInstanceAs (Decidable (a.link_id ≤ b.link_id))

instance : IsTotal GroupKey keyLe := ⟨fun a b => Int.le_total a.link_id b.link_id⟩

instance : IsTrans GroupKey keyLe := ⟨fun _ _ _ h h' => le_trans h h'⟩

/-- The observation rows contributing to group `k` of the global aggregate
query. -/
def groupRows (db : DB) (day period : Int) (k : GroupKey) : List SpeedRecord :=
  ((matchRows db day period).filter (fun rl => keyOf rl == k)).map Prod.fst

/-- `avg(duval.average_speed)` over group `k` (the SQL aggregate, an exact
numeric before any rounding). -/
def groupAvg (db : DB) (day period : Int) (k : GroupKey) : ℚ :=
  let xs := (groupRows db day period k).map (·.average_speed)
  xs.sum / (xs.length : ℚ)

/-- `count(duval.link_id)` over group `k`. -/
def groupCount (db : DB) (day period : Int) (k : GroupKey) : Nat :=
  (groupRows db day period k).length

/-- The grouped-and-ordered result rows of the global aggregate query: the
distinct group keys, sorted by `link_id` (`ORDER BY duval.link_id`). -/
def linkGroups (db : DB) (day period : Int) : List GroupKey :=
  List.insertionSort keyLe ((matchRows db day period).map keyOf).dedup

/-- One entry of the `links` list built by `get_average_speed_by_day_period`:
the dict `{link_id, road_name, geometry, average_speed}`. -/
structure LinkEntry where
  link_id : Int
  road_name : Option String
  geometry : Option Geo
  average_speed : ℚ
deriving Repr, DecidableEq

/-- The `links` entry built from one grouped row: per-link mean speed rounded
to 2 decimals, road name and geometry passed through. -/
def mkLink (db : DB) (day period : Int) (k : GroupKey) : LinkEntry :=
  ⟨k.link_id, k.road_name, k.geometry, round2 (groupAvg db day period k)⟩

/-- The dict returned by `get_average_speed_by_day_period`. -/
structure AggResult where
  day_of_week : Int
  period : Int
  average_speed : ℚ
  record_count : Nat
  links : List LinkEntry
deriving Repr, DecidableEq

/-- `get_average_speed_by_day_period` (`app/services/aggregate.py`, lines
10–96): validates only `day`, runs the grouped query, and either derives the
overall statistics from the per-link rows or returns the no-data sentinel. -/
def get_average_speed_by_day_period (db : DB) (day period : Int) :
    Except String AggResult :=
  if day < 1 || day > 7 then
    .error "Day must be between 1 and 7 (1=Monday, 7=Sunday)"
  else
    match linkGroups db day period with
    | [] => .ok ⟨day, period, 0, 0, []⟩
    | g :: gs =>
      let results := g :: gs
      let total_speed := (results.map (groupAvg db day period)).sum
      let total_records := (results.map (groupCount db day period)).sum
      let overall_average := total_speed / (results.length : ℚ)
      .ok ⟨g.day_of_week, g.period, round2 overall_average, total_records,
        results.map (mkLink db day period)⟩

/-- The dict returned by `get_average_speed_by_link_day_period`: the two
branches of the source build dicts with different key sets, so the result is a
sum.  The `found` fields are exactly the keys of the data-case dict; the
`noData` fields are exactly the keys of the zero-rows dict. -/
inductive LinkAggResult where
  | found (link_id : Int) (day_of_week : Int) (period : Int) (average_speed : ℚ)
      (record_count : Nat) (road_name : Option String) (geometry : Option Geo)
  | noData (link_id : Int) (day_of_week : Int) (period : Int) (average_speed : ℚ)
      (error : String)
deriving Repr, DecidableEq

/-- The dict keys of a `get_average_speed_by_link_day_period` result, exactly
as the source constructs them. -/
def LinkAggResult.resultKeys : LinkAggResult → List String
  | .found _ _ _ _ _ _ _ =>
    ["link_id", "day_of_week", "period", "average_speed", "record_count",
     "road_name", "geometry"]
  | .noData _ _ _ _ _ =>
    ["link_id", "day_of_week", "period", "average_speed", "error"]

/-- The FROM/WHERE part of the per-link query: the join filtered by
`duval.link_id = link_id AND duval.day_of_week = day AND duval.period = period`. -/
def linkMatchRows (db : DB) (link_id day period : Int) :
    List (SpeedRecord × LinkInfo) :=
  (db.speed_records.filter
      (fun r => r.link_id == link_id && r.day_of_week == day && r.period == period)).flatMap
    (fun r => (db.links.filter (fun l => l.link_id == r.link_id)).map (fun l => (r, l)))

/-- The distinct group keys of the per-link query, in row order (the query has
no ORDER BY; `fetch_one` takes the first grouped row). -/
def linkKeys (db : DB) (link_id day period : Int) : List GroupKey :=
  ((linkMatchRows db link_id day period).map keyOf).dedup

/-- The observation rows contributing to group `k` of the per-link query. -/
def linkGroupRows (db : DB) (link_id day period : Int) (k : GroupKey) :
    List SpeedRecord :=
  ((linkMatchRows db link_id day period).filter (fun rl => keyOf rl == k)).map Prod.fst

/-- `avg(duval.average_speed)` over group `k` of the per-link query. -/
def linkGroupAvg (db : DB) (link_id day period : Int) (k : GroupKey) : ℚ :=
  let xs := (linkGroupRows db link_id day period k).map (·.average_speed)
  xs.sum / (xs.length : ℚ)

/-- `count(duval.link_id)` over group `k` of the per-link query. -/
def linkGroupCount (db : DB) (link_id day period : Int) (k : GroupKey) : Nat :=
  (linkGroupRows db link_id day period k).length

/-- `get_average_speed_by_link_day_period` (`app/services/aggregate.py`, lines
99–172): performs no validation of `day` or `period`, fetches the first
grouped row, and either returns its fields (mean speed rounded to 2 decimals,
row count, road name and geometry passed through) or echoes the input back
with speed `0` and the no-data marker. -/
def get_average_speed_by_link_day_period (db : DB) (link_id day period : Int) :
    LinkAggResult :=
  match linkKeys db link_id day period with
  | [] => .noData link_id day period 0
      "No data found for the specified link, day, and period"
  | k :: _ =>
    .found k.link_id k.day_of_week k.period
      (round2 (linkGroupAvg db link_id day period k))
      (linkGroupCount db link_id day period k) k.road_name k.geometry

/-- The FROM/WHERE part of the two spatial-filter queries: the join filtered
by `ST_Intersects(geometry, ST_MakeEnvelope(west, south, east, north, 4326))
AND duval.day_of_week = day AND duval.period = period`. -/
def boxMatchRows (db : DB) (west south east north : ℚ) (day period : Int) :
    List (SpeedRecord × LinkInfo) :=
  (db.speed_records.filter (fun r => r.day_of_week == day && r.period == period)).flatMap
    (fun r =>
      (db.links.filter
          (fun l => l.link_id == r.link_id && intersectsBox l.geometry west south east north)).map
        (fun l => (r, l)))

/-- `get_link_in_box_day_period` (`app/services/aggregate.py`, lines 175–227):
validates only `day`, then `SELECT DISTINCT duval.link_id` over the joined and
spatially filtered rows. -/
def get_link_in_box_day_period (db : DB) (west south east north : ℚ)
    (day period : Int) : Except String (List Int) :=
  if day < 1 || day > 7 then
    .error "Day must be between 1 and 7 (1=Monday, 7=Sunday)"
  else
    .ok (((boxMatchRows db west south east north day period).map
      (fun rl => rl.1.link_id)).dedup)

/-- The GROUP BY key `(link_id, road_name, geometry)` used by the two list
queries that do not group by day/period. -/
structure SimpleKey where
  link_id : Int
  road_name : Option String
  geometry : Option Geo
deriving Repr, DecidableEq

/-- The simple group key of a joined row (`link_id` selected from `duval`,
`road_name` and `geometry` from `link`). -/
def simpleKeyOf (rl : SpeedRecord × LinkInfo) : SimpleKey :=
  ⟨rl.1.link_id, rl.2.road_name, rl.2.geometry⟩

/-- Ordering of simple group keys used by `ORDER BY link_id`. -/
def simpleKeyLe (a b : SimpleKey) : Prop := a.link_id ≤ b.link_id

instance : DecidableRel simpleKeyLe :=
  fun a b => inferInstanceAs (Decidable (a.link_id ≤ b.link_id))

instance : IsTotal SimpleKey simpleKeyLe := ⟨fun a b => Int.le_total a.link_id b.link_id⟩

instance : IsTrans SimpleKey simpleKeyLe := ⟨fun _ _ _ h h' => le_trans h h'⟩

/-- `avg(duval.average_speed)` over the rows of simple group `k` drawn from
row list `rows`. -/
def simpleGroupAvg (rows : List (SpeedRecord × LinkInfo)) (k : SimpleKey) : ℚ :=
  let xs := (rows.filter (fun rl => simpleKeyOf rl == k)).map (·.1.average_speed)
  xs.sum / (xs.length : ℚ)

/-- The links-list entry built from simple group `k`: id, road name, geometry
passed through, mean speed rounded to 2 decimals. -/
def mkSimpleLink (rows : List (SpeedRecord × LinkInfo)) (k : SimpleKey) : LinkEntry :=
  ⟨k.link_id, k.road_name, k.geometry, round2 (simpleGroupAvg rows k)⟩

/-- `get_links_with_geometries_in_box_day_period` (`app/services/aggregate.py`,
lines 230–303): validates only `day`; joined rows filtered by the spatial
predicate and day/period, grouped by `(link_id, road_name, geometry)`, one
entry per group (the query has no ORDER BY). -/
def get_links_with_geometries_in_box_day_period (db : DB)
    (west south east north : ℚ) (day period : Int) :
    Except String (List LinkEntry) :=
  if day < 1 || day > 7 then
    .error "Day must be between 1 and 7 (1=Monday, 7=Sunday)"
  else
    let rows := boxMatchRows db west south east north day period
    .ok (((rows.map simpleKeyOf).dedup).map (mkSimpleLink rows))

/-- `get_links_geometry_roadname_speed_by_day_period`
(`app/services/aggregate.py`, lines 306–366): validates only `day`; joined
rows filtered by day/period, grouped by `(link_id, road_name, geometry)`,
ordered by `link_id`. -/
def get_links_geometry_roadname_speed_by_day_period (db : DB)
    (day period : Int) : Except String (List LinkEntry) :=
  if day < 1 || day > 7 then
    .error "Day must be between 1 and 7 (1=Monday, 7=Sunday)"
  else
    let rows := matchRows db day period
    .ok ((List.insertionSort simpleKeyLe (rows.map simpleKeyOf).dedup).map
      (mkSimpleLink rows))

/-- `SpatialFilterIn.validate_bbox` (`app/models/spatial_filter.py`, lines
13–37): length check, longitude/latitude range checks, strict ordering checks,
then the list returned unchanged. -/
def validate_bbox (v : List ℚ) : Except String (List ℚ) :=
  match v with
  | [west, south, east, north] =>
    if ¬(-180 ≤ west ∧ west ≤ 180) ∨ ¬(-180 ≤ east ∧ east ≤ 180) then
      .error "Longitude values (west, east) must be between -180 and 180"
    else if ¬(-90 ≤ south ∧ south ≤ 90) ∨ ¬(-90 ≤ north ∧ north ≤ 90) then
      .error "Latitude values (south, north) must be between -90 and 90"
    else if west ≥ east then
      .error "West longitude must be less than east longitude"
    else if south ≥ north then
      .error "South latitude must be less than north latitude"
    else
      .ok [west, south, east, north]
  | _ => .error "Bounding box must contain exactly 4 coordinates [west, south, east, north]"

/-- `DAY_MAPPING` (`app/helpers/periods.py`, lines 19–27), as an association
list in source order. -/
def DAY_MAPPING : List (String × Int) :=
  [("Sunday", 1), ("Monday", 2), ("Tuesday", 3), ("Wednesday", 4),
   ("Thursday", 5), ("Friday", 6), ("Saturday", 7)]

/-- `get_day_number` (`app/helpers/periods.py`, lines 75–88):
`DAY_MAPPING[day_name]`, raising `KeyError` on a miss. -/
def get_day_number (day_name : String) : Except String Int :=
  match DAY_MAPPING.lookup day_name with
  | some c => .ok c
  | none => .error ("KeyError: " ++ day_name)

/-- The reverse mapping `{v: k for k, v in DAY_MAPPING.items()}` built by
`get_day_name`; the values of `DAY_MAPPING` are distinct, so an association
list in source order is the straightforward model of the dict. -/
def reverseDayMapping : List (Int × String) :=
  DAY_MAPPING.map (fun p => (p.2, p.1))

/-- `get_day_name` (`app/helpers/periods.py`, lines 90–106): reverse lookup,
raising `ValueError` with the interpolated message when the code is not a
key. -/
def get_day_name (day_number : Int) : Except String String :=
  match reverseDayMapping.lookup day_number with
  | some n => .ok n
  | none => .error ("Invalid day number " ++ toString day_number ++ ". Valid range: 1-7")

/-- `AggregateRequest.get_day_number` (`app/models/aggregate.py`, lines
12–14): delegates to the helper. -/
def AggregateRequest_get_day_number (day : String) : Except String Int :=
  get_day_number day

/-- `SpatialFilterIn.get_day_number` (`app/models/spatial_filter.py`, lines
39–41): delegates to the helper. -/
def SpatialFilterIn_get_day_number (day : String) : Except String Int :=
  get_day_number day

/-- The day-name conversion inlined in the `aggregate_link` router
(`app/routers/aggregate_link.py`: `day_number = DAY_MAPPING[day]`). -/
def aggregate_link_router_day_number (day : String) : Except String Int :=
  match DAY_MAPPING.lookup day with
  | some c => .ok c
  | none => .error ("KeyError: " ++ day)

/-- The specification's test fixture: three observation rows on link 100 with
speeds 40, 42, 44 and two on link 200 with speeds 50, 60, all on day 3
(Tuesday) and period 3 (AM Peak), joined to segment rows for 100 and 200.
Link 100's geometry lies inside the sub-box `[-81.75, 30.15, -81.65, 30.25]`;
link 200's lies inside the full box `[-81.8, 30.1, -81.6, 30.3]` only. -/
def fixtureDB : DB :=
  { speed_records :=
      [⟨100, 3, 3, 40, none⟩, ⟨100, 3, 3, 42, none⟩, ⟨100, 3, 3, 44, none⟩,
       ⟨200, 3, 3, 50, none⟩, ⟨200, 3, 3, 60, none⟩],
    links :=
      [⟨100, some "Main Street", some [(-817/10, 151/5)], some 1⟩,
       ⟨200, some "Oak Avenue", some [(-8179/100, 3011/100)], some 2⟩] }

/-- The empty database. -/
def emptyDB : DB := ⟨[], []⟩

/-- The global-aggregate result on the fixture. -/
def fixtureAggResult : AggResult :=
  ⟨3, 3, 97/2, 5,
   [⟨100, some "Main Street", some [(-817/10, 151/5)], 42⟩,
    ⟨200, some "Oak Avenue", some [(-8179/100, 3011/100)], 55⟩]⟩

/-! ### Helper lemmas -/

theorem linkGroups_eq_nil {db : DB} {day period : Int} :
    linkGroups db day period = [] ↔ matchRows db day period = [] := by
  unfold linkGroups
  constructor
  · intro h
    have hp := List.perm_insertionSort keyLe ((matchRows db day period).map keyOf).dedup
    rw [h] at hp
    have hd := hp.symm.eq_nil
    rwa [List.dedup_eq_nil, List.map_eq_nil_iff] at hd
  · intro h
    simp [h]

theorem linkKeys_eq_nil {db : DB} {lid day period : Int} :
    linkKeys db lid day period = [] ↔ linkMatchRows db lid day period = [] := by
  unfold linkKeys
  rw [List.dedup_eq_nil, List.map_eq_nil_iff]

theorem intersectsBox_mono {g : Option Geo} {w1 s1 e1 n1 w2 s2 e2 n2 : ℚ}
    (hw : w2 ≤ w1) (hs : s2 ≤ s1) (he : e1 ≤ e2) (hn : n1 ≤ n2)
    (h : intersectsBox g w1 s1 e1 n1 = true) :
    intersectsBox g w2 s2 e2 n2 = true := by
  cases g with
  | none => simp [intersectsBox] at h
  | some pts =>
    simp only [intersectsBox, List.any_eq_true] at h ⊢
    obtain ⟨p, hp, hbox⟩ := h
    refine ⟨p, hp, ?_⟩
    simp only [inBox, decide_eq_true_eq] at hbox ⊢
    obtain ⟨h1, h2, h3, h4⟩ := hbox
    exact ⟨le_trans hw h1, le_trans h2 he, le_trans hs h3, le_trans h4 hn⟩

theorem boxMatchRows_mono {db : DB} {w1 s1 e1 n1 w2 s2 e2 n2 : ℚ}
    {day period : Int} {rl : SpeedRecord × LinkInfo}
    (hw : w2 ≤ w1) (hs : s2 ≤ s1) (he : e1 ≤ e2) (hn : n1 ≤ n2)
    (h : rl ∈ boxMatchRows db w1 s1 e1 n1 day period) :
    rl ∈ boxMatchRows db w2 s2 e2 n2 day period := by
  simp only [boxMatchRows, List.mem_flatMap, List.mem_filter, List.mem_map,
    Bool.and_eq_true] at h ⊢
  obtain ⟨r, hr, l, ⟨hl, hid, hbox⟩, heq⟩ := h
  exact ⟨r, hr, l, ⟨hl, hid, intersectsBox_mono hw hs he hn hbox⟩, heq⟩

/-! ### Concrete evaluations on the fixture -/

/-- The fixture's segment row for link 100. -/
def fixtureLink100 : LinkInfo := ⟨100, some "Main Street", some [(-817/10, 151/5)], some 1⟩

/-- The fixture's segment row for link 200. -/
def fixtureLink200 : LinkInfo := ⟨200, some "Oak Avenue", some [(-8179/100, 3011/100)], some 2⟩

/-- The joined rows of the fixture for day 3, period 3. -/
def fixtureRows : List (SpeedRecord × LinkInfo) :=
  [(⟨100, 3, 3, 40, none⟩, fixtureLink100),
   (⟨100, 3, 3, 42, none⟩, fixtureLink100),
   (⟨100, 3, 3, 44, none⟩, fixtureLink100),
   (⟨200, 3, 3, 50, none⟩, fixtureLink200),
   (⟨200, 3, 3, 60, none⟩, fixtureLink200)]

/-- The fixture's group key for link 100. -/
def fixtureKey100 : GroupKey := ⟨100, 3, 3, some "Main Street", some [(-817/10, 151/5)]⟩

/-- The fixture's group key for link 200. -/
def fixtureKey200 : GroupKey := ⟨200, 3, 3, some "Oak Avenue", some [(-8179/100, 3011/100)]⟩

theorem fixture_matchRows_eval : matchRows fixtureDB 3 3 = fixtureRows := by
  simp [matchRows, fixtureDB, fixtureRows, fixtureLink100, fixtureLink200,
    List.filter, List.flatMap]

theorem fixture_linkGroups_eval : linkGroups fixtureDB 3 3 = [fixtureKey100, fixtureKey200] := by
  rw [linkGroups, fixture_matchRows_eval]
  simp [fixtureRows, fixtureLink100, fixtureLink200, fixtureKey100, fixtureKey200, keyOf,
    List.dedup, List.insertionSort, List.orderedInsert]
  norm_num [keyLe]

theorem fixture_groupRows_100 : groupRows fixtureDB 3 3 fixtureKey100 =
    [⟨100, 3, 3, 40, none⟩, ⟨100, 3, 3, 42, none⟩, ⟨100, 3, 3, 44, none⟩] := by
  rw [groupRows, fixture_matchRows_eval]
  simp [fixtureRows, fixtureLink100, fixtureLink200, fixtureKey100, keyOf,
    List.filter_cons, List.filter_nil]

theorem fixture_groupRows_200 : groupRows fixtureDB 3 3 fixtureKey200 =
    [⟨200, 3, 3, 50, none⟩, ⟨200, 3, 3, 60, none⟩] := by
  rw [groupRows, fixture_matchRows_eval]
  simp [fixtureRows, fixtureLink100, fixtureLink200, fixtureKey200, keyOf,
    List.filter_cons, List.filter_nil]

theorem fixture_groupAvg_100 : groupAvg fixtureDB 3 3 fixtureKey100 = 42 := by
  rw [groupAvg, fixture_groupRows_100]; norm_num

theorem fixture_groupAvg_200 : groupAvg fixtureDB 3 3 fixtureKey200 = 55 := by
  rw [groupAvg, fixture_groupRows_200]; norm_num

theorem fixture_groupCount_100 : groupCount fixtureDB 3 3 fixtureKey100 = 3 := by
  rw [groupCount, fixture_groupRows_100]; rfl

theorem fixture_groupCount_200 : groupCount fixtureDB 3 3 fixtureKey200 = 2 := by
  rw [groupCount, fixture_groupRows_200]; rfl

/-- The global aggregate evaluated on the fixture: per-link means 42 and 55,
overall mean 97/2 = 48.50, record_count 5, links ordered 100 then 200. -/
theorem fixture_global_eval :
    get_average_speed_by_day_period fixtureDB 3 3 = .ok fixtureAggResult := by
  rw [get_average_speed_by_day_period, if_neg (by decide), fixture_linkGroups_eval]
  simp only [List.map_cons, List.map_nil, List.sum_cons, List.sum_nil, List.length_cons,
    List.length_nil, mkLink, fixture_groupAvg_100, fixture_groupAvg_200,
    fixture_groupCount_100, fixture_groupCount_200]
  norm_num [fixtureAggResult, fixtureKey100, fixtureKey200, round2, roundHalfEven,
    Rat.floor_def']

theorem fixture_linkMatchRows_eval : linkMatchRows fixtureDB 100 3 3 =
    [(⟨100, 3, 3, 40, none⟩, fixtureLink100),
     (⟨100, 3, 3, 42, none⟩, fixtureLink100),
     (⟨100, 3, 3, 44, none⟩, fixtureLink100)] := by
  simp [linkMatchRows, fixtureDB, fixtureLink100, List.filter, List.flatMap]

theorem fixture_linkKeys_eval : linkKeys fixtureDB 100 3 3 = [fixtureKey100] := by
  rw [linkKeys, fixture_linkMatchRows_eval]
  simp [fixtureLink100, fixtureKey100, keyOf, List.dedup_cons_of_mem,
    List.dedup_cons_of_not_mem]

theorem fixture_linkGroupRows_eval : linkGroupRows fixtureDB 100 3 3 fixtureKey100 =
    [⟨100, 3, 3, 40, none⟩, ⟨100, 3, 3, 42, none⟩, ⟨100, 3, 3, 44, none⟩] := by
  rw [linkGroupRows, fixture_linkMatchRows_eval]
  simp [fixtureLink100, fixtureKey100, keyOf, List.filter_cons, List.filter_nil]

/-- The per-link aggregate evaluated on the fixture at (100, day 3, period 3). -/
theorem fixture_link_found_eval : get_average_speed_by_link_day_period fixtureDB 100 3 3 =
    .found 100 3 3 42 3 (some "Main Street") (some [(-817/10, 151/5)]) := by
  rw [get_average_speed_by_link_day_period, fixture_linkKeys_eval]
  have havg : linkGroupAvg fixtureDB 100 3 3 fixtureKey100 = 42 := by
    rw [linkGroupAvg, fixture_linkGroupRows_eval]; norm_num
  have hcnt : linkGroupCount fixtureDB 100 3 3 fixtureKey100 = 3 := by
    rw [linkGroupCount, fixture_linkGroupRows_eval]; rfl
  simp only [havg, hcnt]
  norm_num [fixtureKey100, round2, roundHalfEven, Rat.floor_def']

theorem fixture_period999_empty : matchRows fixtureDB 3 999 = [] := by
  simp [matchRows, fixtureDB, List.filter, List.flatMap]

theorem fixture_link_period999_empty : linkMatchRows fixtureDB 100 3 999 = [] := by
  simp [linkMatchRows, fixtureDB, List.filter, List.flatMap]

/-- The spatial-filter link-id operation on the fixture and the sub-box
[-81.75, 30.15, -81.65, 30.25]: only link 100's geometry intersects. -/
theorem fixture_boxA_eval :
    get_link_in_box_day_period fixtureDB (-327/4) (603/20) (-1633/20) (121/4) 3 3 =
      .ok [100] := by
  have h100 : intersectsBox (some [(-817/10, 151/5)])
      (-327/4) (603/20) (-1633/20) (121/4) = true := by
    norm_num [intersectsBox, inBox, List.any_cons, List.any_nil]
  have h200 : intersectsBox (some [(-8179/100, 3011/100)])
      (-327/4) (603/20) (-1633/20) (121/4) = false := by
    norm_num [intersectsBox, inBox, List.any_cons, List.any_nil]
  rw [get_link_in_box_day_period, if_neg (by decide)]
  have hrows : boxMatchRows fixtureDB (-327/4) (603/20) (-1633/20) (121/4) 3 3 =
      [(⟨100, 3, 3, 40, none⟩, fixtureLink100),
       (⟨100, 3, 3, 42, none⟩, fixtureLink100),
       (⟨100, 3, 3, 44, none⟩, fixtureLink100)] := by
    simp [boxMatchRows, fixtureDB, fixtureLink100, fixtureLink200, List.filter,
      List.flatMap, h100, h200]
  rw [hrows]
  simp [fixtureLink100, List.dedup_cons_of_mem, List.dedup_cons_of_not_mem]

/-- The spatial-filter link-id operation on the fixture and the full box
[-81.8, 30.1, -81.6, 30.3]: both geometries intersect. -/
theorem fixture_boxB_eval :
    get_link_in_box_day_period fixtureDB (-409/5) (301/10) (-408/5) (303/10) 3 3 =
      .ok [100, 200] := by
  have h100 : intersectsBox (some [(-817/10, 151/5)])
      (-409/5) (301/10) (-408/5) (303/10) = true := by
    norm_num [intersectsBox, inBox, List.any_cons, List.any_nil]
  have h200 : intersectsBox (some [(-8179/100, 3011/100)])
      (-409/5) (301/10) (-408/5) (303/10) = true := by
    norm_num [intersectsBox, inBox, List.any_cons, List.any_nil]
  rw [get_link_in_box_day_period, if_neg (by decide)]
  have hrows : boxMatchRows fixtureDB (-409/5) (301/10) (-408/5) (303/10) 3 3 =
      [(⟨100, 3, 3, 40, none⟩, fixtureLink100),
       (⟨100, 3, 3, 42, none⟩, fixtureLink100),
       (⟨100, 3, 3, 44, none⟩, fixtureLink100),
       (⟨200, 3, 3, 50, none⟩, fixtureLink200),
       (⟨200, 3, 3, 60, none⟩, fixtureLink200)] := by
    simp [boxMatchRows, fixtureDB, fixtureLink100, fixtureLink200, List.filter,
      List.flatMap, h100, h200]
  rw [hrows]
  simp [fixtureLink100, fixtureLink200, List.dedup_cons_of_mem, List.dedup_cons_of_not_mem]

theorem bbox_valid_eval :
    (validate_bbox [-409/5, 301/10, -408/5, 303/10]).isOk = true := by
  norm_num [validate_bbox, Except.isOk, Except.toBool]

/-! ### Claim theorems -/

/-- C4: for every list of rationals supplied as a bounding box, the validator
succeeds iff the list has exactly 4 elements (west, south, east, north) with
west and east in [-180, 180], south and north in [-90, 90], west strictly less
than east and south strictly less than north; on success it returns the 4
values unchanged, and otherwise it returns a validation error. -/
theorem C4_validate_bbox (v : List ℚ) :
    ((validate_bbox v).isOk = true ↔
      ∃ west south east north, v = [west, south, east, north] ∧
        -180 ≤ west ∧ west ≤ 180 ∧ -180 ≤ east ∧ east ≤ 180 ∧
        -90 ≤ south ∧ south ≤ 90 ∧ -90 ≤ north ∧ north ≤ 90 ∧
        west < east ∧ south < north)
    ∧ ((validate_bbox v).isOk = true → validate_bbox v = .ok v) := by
  match v with
  | [] | [_] | [_, _] | [_, _, _] | _ :: _ :: _ :: _ :: _ :: _ =>
    refine ⟨⟨fun hok => ?_, fun hex => ?_⟩, fun hok => ?_⟩
    · simp [validate_bbox, Except.isOk, Except.toBool] at hok
    · obtain ⟨w', s', e', n', heq, _⟩ := hex
      simp at heq
    · simp [validate_bbox, Except.isOk, Except.toBool] at hok
  | [w, s, e, n] =>
    refine ⟨⟨fun hok => ?_, fun hex => ?_⟩, fun hok => ?_⟩
    · simp only [validate_bbox] at hok
      split_ifs at hok with h1 h2 h3 h4
      · simp [Except.isOk, Except.toBool] at hok
      · simp [Except.isOk, Except.toBool] at hok
      · simp [Except.isOk, Except.toBool] at hok
      · simp [Except.isOk, Except.toBool] at hok
      · push_neg at h1 h2
        exact ⟨w, s, e, n, rfl, h1.1.1, h1.1.2, h1.2.1, h1.2.2, h2.1.1, h2.1.2,
          h2.2.1, h2.2.2, not_le.mp h3, not_le.mp h4⟩
    · obtain ⟨w', s', e', n', heq, c1, c2, c3, c4, c5, c6, c7, c8, c9, c10⟩ := hex
      obtain ⟨rfl, rfl, rfl, rfl⟩ : w = w' ∧ s = s' ∧ e = e' ∧ n = n' := by
        simpa using heq
      simp only [validate_bbox]
      rw [if_neg (by push_neg; exact ⟨⟨c1, c2⟩, c3, c4⟩),
          if_neg (by push_neg; exact ⟨⟨c5, c6⟩, c7, c8⟩),
          if_neg (not_le.mpr c9), if_neg (not_le.mpr c10)]
      rfl
    · simp only [validate_bbox] at hok ⊢
      split_ifs at hok ⊢ with h1 h2 h3 h4
      all_goals simp_all [Except.isOk, Except.toBool]

/-- C4 witness: the spec's example box [-81.8, 30.1, -81.6, 30.3] is accepted
and returned unchanged. -/
theorem C4_validate_bbox_witness :
    validate_bbox [-409/5, 301/10, -408/5, 303/10] =
      .ok [-409/5, 301/10, -408/5, 303/10] :=
  (C4_validate_bbox [-409/5, 301/10, -408/5, 303/10]).2 bbox_valid_eval

/-- C8: the day-name-to-code mapping is exactly Sunday=1, Monday=2, Tuesday=3,
Wednesday=4, Thursday=5, Friday=6, Saturday=7 (Sunday-first), the mapping has
exactly these 7 names, and every name-to-code conversion performed by the
query layer (the helper, the two request models and the inlined router lookup)
computes the same function. -/
theorem C8_day_mapping_uniform :
    DAY_MAPPING.lookup "Sunday" = some 1 ∧ DAY_MAPPING.lookup "Monday" = some 2 ∧
    DAY_MAPPING.lookup "Tuesday" = some 3 ∧ DAY_MAPPING.lookup "Wednesday" = some 4 ∧
    DAY_MAPPING.lookup "Thursday" = some 5 ∧ DAY_MAPPING.lookup "Friday" = some 6 ∧
    DAY_MAPPING.lookup "Saturday" = some 7 ∧
    DAY_MAPPING.map Prod.fst =
      ["Sunday", "Monday", "Tuesday", "Wednesday", "Thursday", "Friday", "Saturday"] ∧
    (∀ n, AggregateRequest_get_day_number n = get_day_number n) ∧
    (∀ n, SpatialFilterIn_get_day_number n = get_day_number n) ∧
    (∀ n, aggregate_link_router_day_number n = get_day_number n) := by
  refine ⟨by decide, by decide, by decide, by decide, by decide, by decide, by decide,
    by decide, fun n => rfl, fun n => rfl, fun n => rfl⟩

/-- C9: converting a valid day name to its code and back yields the original
name; the inverse lookup is total over codes 1–7 and fails with the
invalid-code error for any code outside 1–7. -/
theorem C9_day_roundtrip :
    (∀ name code, get_day_number name = .ok code → get_day_name code = .ok name)
    ∧ (∀ c : Int, 1 ≤ c → c ≤ 7 → (get_day_name c).isOk = true)
    ∧ (∀ c : Int, c < 1 ∨ 7 < c →
        get_day_name c =
          .error ("Invalid day number " ++ toString c ++ ". Valid range: 1-7")) := by
  refine ⟨?_, ?_, ?_⟩
  · intro name code h
    by_cases c1 : name = "Sunday"
    · subst c1
      rw [show get_day_number "Sunday" = .ok 1 from rfl] at h
      simp only [Except.ok.injEq] at h
      subst h; rfl
    by_cases c2 : name = "Monday"
    · subst c2
      rw [show get_day_number "Monday" = .ok 2 from rfl] at h
      simp only [Except.ok.injEq] at h
      subst h; rfl
    by_cases c3 : name = "Tuesday"
    · subst c3
      rw [show get_day_number "Tuesday" = .ok 3 from rfl] at h
      simp only [Except.ok.injEq] at h
      subst h; rfl
    by_cases c4 : name = "Wednesday"
    · subst c4
      rw [show get_day_number "Wednesday" = .ok 4 from rfl] at h
      simp only [Except.ok.injEq] at h
      subst h; rfl
    by_cases c5 : name = "Thursday"
    · subst c5
      rw [show get_day_number "Thursday" = .ok 5 from rfl] at h
      simp only [Except.ok.injEq] at h
      subst h; rfl
    by_cases c6 : name = "Friday"
    · subst c6
      rw [show get_day_number "Friday" = .ok 6 from rfl] at h
      simp only [Except.ok.injEq] at h
      subst h; rfl
    by_cases c7 : name = "Saturday"
    · subst c7
      rw [show get_day_number "Saturday" = .ok 7 from rfl] at h
      simp only [Except.ok.injEq] at h
      subst h; rfl
    · have k1 : (name == "Sunday") = false := beq_eq_false_iff_ne.mpr c1
      have k2 : (name == "Monday") = false := beq_eq_false_iff_ne.mpr c2
      have k3 : (name == "Tuesday") = false := beq_eq_false_iff_ne.mpr c3
      have k4 : (name == "Wednesday") = false := beq_eq_false_iff_ne.mpr c4
      have k5 : (name == "Thursday") = false := beq_eq_false_iff_ne.mpr c5
      have k6 : (name == "Friday") = false := beq_eq_false_iff_ne.mpr c6
      have k7 : (name == "Saturday") = false := beq_eq_false_iff_ne.mpr c7
      simp [get_day_number, DAY_MAPPING, List.lookup, k1, k2, k3, k4, k5, k6, k7] at h
  · intro c h1 h7
    interval_cases c <;> decide
  · intro c h
    have k1 : (c == (1 : Int)) = false := beq_eq_false_iff_ne.mpr (by omega)
    have k2 : (c == (2 : Int)) = false := beq_eq_false_iff_ne.mpr (by omega)
    have k3 : (c == (3 : Int)) = false := beq_eq_false_iff_ne.mpr (by omega)
    have k4 : (c == (4 : Int)) = false := beq_eq_false_iff_ne.mpr (by omega)
    have k5 : (c == (5 : Int)) = false := beq_eq_false_iff_ne.mpr (by omega)
    have k6 : (c == (6 : Int)) = false := beq_eq_false_iff_ne.mpr (by omega)
    have k7 : (c == (7 : Int)) = false := beq_eq_false_iff_ne.mpr (by omega)
    simp [get_day_name, reverseDayMapping, DAY_MAPPING, List.lookup,
      k1, k2, k3, k4, k5, k6, k7]

/-- C9 witness: Monday round-trips through code 2, code 7 is accepted, and
code 0 yields the invalid-code error. -/
theorem C9_day_roundtrip_witness :
    get_day_name 2 = .ok "Monday"
    ∧ (get_day_name 7).isOk = true
    ∧ get_day_name 0 =
        .error ("Invalid day number " ++ toString (0 : Int) ++ ". Valid range: 1-7") :=
  ⟨C9_day_roundtrip.1 "Monday" 2 rfl, C9_day_roundtrip.2.1 7 (by omega) (by omega),
   C9_day_roundtrip.2.2 0 (Or.inl (by omega))⟩

/-- C1: for every day and period with at least one matching observation, the
global aggregate returns the overall `average_speed` as the (rounded)
unweighted mean of the per-link mean speeds, the `record_count` as the sum of
the per-link observation counts, and the `links` list — one rounded entry per
grouped link — ordered by `link_id` ascending. -/
theorem C1_global_unweighted_mean (db : DB) (day period : Int) (r : AggResult)
    (h : get_average_speed_by_day_period db day period = .ok r)
    (hne : matchRows db day period ≠ []) :
    r.average_speed = round2 (((linkGroups db day period).map (groupAvg db day period)).sum /
      ((linkGroups db day period).length : ℚ))
    ∧ r.record_count = ((linkGroups db day period).map (groupCount db day period)).sum
    ∧ r.links = (linkGroups db day period).map (mkLink db day period)
    ∧ List.Sorted (fun a b : LinkEntry => a.link_id ≤ b.link_id) r.links := by
  have hsorted : List.Sorted keyLe (linkGroups db day period) :=
    List.sorted_insertionSort keyLe _
  rw [get_average_speed_by_day_period] at h
  split at h
  · exact Except.noConfusion h
  · cases hG : linkGroups db day period with
    | nil => exact absurd (linkGroups_eq_nil.mp hG) hne
    | cons g gs =>
      rw [hG] at h hsorted
      simp only [Except.ok.injEq] at h
      subst h
      refine ⟨rfl, rfl, rfl, ?_⟩
      exact List.Pairwise.map _ (fun a b hab => hab) hsorted

/-- C1 witness: on the fixture (link 100 with speeds 40, 42, 44; link 200 with
speeds 50, 60; day 3, period 3) the global aggregate returns per-link means
42.00 and 55.00, overall mean 48.50 (97/2) and record_count 5, and the general
theorem instantiates there. -/
theorem C1_global_unweighted_mean_witness :
    get_average_speed_by_day_period fixtureDB 3 3 = .ok fixtureAggResult
    ∧ (fixtureAggResult.average_speed =
        round2 (((linkGroups fixtureDB 3 3).map (groupAvg fixtureDB 3 3)).sum /
          ((linkGroups fixtureDB 3 3).length : ℚ))
      ∧ fixtureAggResult.record_count =
          ((linkGroups fixtureDB 3 3).map (groupCount fixtureDB 3 3)).sum
      ∧ fixtureAggResult.links = (linkGroups fixtureDB 3 3).map (mkLink fixtureDB 3 3)
      ∧ List.Sorted (fun a b : LinkEntry => a.link_id ≤ b.link_id) fixtureAggResult.links) :=
  ⟨fixture_global_eval,
   C1_global_unweighted_mean fixtureDB 3 3 fixtureAggResult fixture_global_eval
     (by simp [fixture_matchRows_eval, fixtureRows])⟩

/-- C10: whenever the global aggregate reaches the overall-average division
(the non-empty branch, i.e. the returned `links` list is non-empty), the
divisor is the number of grouped rows, which is at least 1, so division by
zero is unreachable. -/
theorem C10_overall_division_guard (db : DB) (day period : Int) (r : AggResult)
    (h : get_average_speed_by_day_period db day period = .ok r)
    (hne : r.links ≠ []) :
    0 < (linkGroups db day period).length
    ∧ r.average_speed = round2 (((linkGroups db day period).map (groupAvg db day period)).sum /
        ((linkGroups db day period).length : ℚ)) := by
  rw [get_average_speed_by_day_period] at h
  split at h
  · exact Except.noConfusion h
  · cases hG : linkGroups db day period with
    | nil =>
      rw [hG] at h
      simp only [Except.ok.injEq] at h
      subst h
      exact absurd rfl hne
    | cons g gs =>
      rw [hG] at h
      simp only [Except.ok.injEq] at h
      subst h
      exact ⟨by simp, rfl⟩

/-- C10 witness: on the fixture the non-empty branch is taken with divisor 2. -/
theorem C10_overall_division_guard_witness :
    0 < (linkGroups fixtureDB 3 3).length
    ∧ fixtureAggResult.average_speed =
        round2 (((linkGroups fixtureDB 3 3).map (groupAvg fixtureDB 3 3)).sum /
          ((linkGroups fixtureDB 3 3).length : ℚ)) :=
  C10_overall_division_guard fixtureDB 3 3 fixtureAggResult fixture_global_eval
    (by simp [fixtureAggResult])

/-- C5: for every valid day and any period, when the query matches zero
observation rows the aggregates do not fail: the global aggregate returns
`{day, period, average_speed: 0, record_count: 0, links: []}` and the
per-link aggregate echoes the input back with speed 0 and the explicit
no-data marker. -/
theorem C5_no_data_sentinel (db : DB) (link_id day period : Int)
    (hd1 : 1 ≤ day) (hd7 : day ≤ 7)
    (h0 : matchRows db day period = [])
    (h1 : linkMatchRows db link_id day period = []) :
    get_average_speed_by_day_period db day period = .ok ⟨day, period, 0, 0, []⟩
    ∧ get_average_speed_by_link_day_period db link_id day period =
        .noData link_id day period 0
          "No data found for the specified link, day, and period" := by
  constructor
  · rw [get_average_speed_by_day_period,
      if_neg (by simp only [Bool.or_eq_true, decide_eq_true_eq]; omega),
      linkGroups_eq_nil.mpr h0]
  · rw [get_average_speed_by_link_day_period, linkKeys_eq_nil.mpr h1]

/-- C5 witness: on the empty database with day 3, period 3 and link 100 both
sentinels are returned. -/
theorem C5_no_data_sentinel_witness :
    get_average_speed_by_day_period emptyDB 3 3 = .ok ⟨3, 3, 0, 0, []⟩
    ∧ get_average_speed_by_link_day_period emptyDB 100 3 3 =
        .noData 100 3 3 0 "No data found for the specified link, day, and period" :=
  C5_no_data_sentinel emptyDB 100 3 3 (by omega) (by omega) rfl rfl

/-- C7: every link-id list successfully returned by the spatial-filter link-id
operation contains no duplicate elements. -/
theorem C7_distinct_link_ids (db : DB) (west south east north : ℚ)
    (day period : Int) (ids : List Int)
    (h : get_link_in_box_day_period db west south east north day period = .ok ids) :
    ids.Nodup := by
  rw [get_link_in_box_day_period] at h
  split at h
  · exact Except.noConfusion h
  · simp only [Except.ok.injEq] at h
    subst h
    exact List.nodup_dedup _

/-- C7 witness: on the fixture and the full box the returned list [100, 200]
has no duplicates. -/
theorem C7_distinct_link_ids_witness : ([100, 200] : List Int).Nodup :=
  C7_distinct_link_ids fixtureDB (-409/5) (301/10) (-408/5) (303/10) 3 3 [100, 200]
    fixture_boxB_eval

/-- C6: for a fixed day and period, if bounding box A is contained in bounding
box B, every link id returned by the spatial-filter link-id operation for A is
also returned for B. -/
theorem C6_bbox_monotone (db : DB) (w1 s1 e1 n1 w2 s2 e2 n2 : ℚ)
    (day period : Int) (la lb : List Int)
    (hw : w2 ≤ w1) (hs : s2 ≤ s1) (he : e1 ≤ e2) (hn : n1 ≤ n2)
    (hA : get_link_in_box_day_period db w1 s1 e1 n1 day period = .ok la)
    (hB : get_link_in_box_day_period db w2 s2 e2 n2 day period = .ok lb) :
    la ⊆ lb := by
  rw [get_link_in_box_day_period] at hA hB
  split at hA
  · exact Except.noConfusion hA
  split at hB
  · exact Except.noConfusion hB
  simp only [Except.ok.injEq] at hA hB
  subst hA
  subst hB
  intro x hx
  rw [List.mem_dedup, List.mem_map] at hx ⊢
  obtain ⟨rl, hrl, rfl⟩ := hx
  exact ⟨rl, boxMatchRows_mono hw hs he hn hrl, rfl⟩

/-- C6 witness: on the fixture, the sub-box [-81.75, 30.15, -81.65, 30.25] of
the full box [-81.8, 30.1, -81.6, 30.3] returns [100], the full box returns
[100, 200], and the first is contained in the second. -/
theorem C6_bbox_monotone_witness : ([100] : List Int) ⊆ [100, 200] :=
  C6_bbox_monotone fixtureDB (-327/4) (603/20) (-1633/20) (121/4)
    (-409/5) (301/10) (-408/5) (303/10) 3 3 [100] [100, 200]
    (by norm_num) (by norm_num) (by norm_num) (by norm_num)
    fixture_boxA_eval fixture_boxB_eval

/-- C2 counterexample: with day 3 and period 999 (out of the 1–7 range) the
global aggregate succeeds with the empty sentinel instead of failing, and the
per-link aggregate returns the no-data result instead of raising — no
InvalidRange error occurs for an out-of-range period. -/
theorem C2_counterexample :
    (get_average_speed_by_day_period fixtureDB 3 999).isOk = true
    ∧ get_average_speed_by_link_day_period fixtureDB 100 3 999 =
        .noData 100 3 999 0 "No data found for the specified link, day, and period" := by
  constructor
  · rw [get_average_speed_by_day_period, if_neg (by decide),
      linkGroups_eq_nil.mpr fixture_period999_empty]
    rfl
  · rw [get_average_speed_by_link_day_period,
      linkKeys_eq_nil.mpr fixture_link_period999_empty]

/-- C2 (amended): only the `day` code is range-validated, and only by the
global aggregate, the simplified list and the two spatial-filter operations,
which fail when day is outside 1–7; `period` is never validated and the
per-link aggregate performs no validation at all. -/
theorem C2_day_validation_only (db : DB) (west south east north : ℚ)
    (day period : Int) (h : day < 1 ∨ 7 < day) :
    (get_average_speed_by_day_period db day period).isOk = false
    ∧ (get_link_in_box_day_period db west south east north day period).isOk = false
    ∧ (get_links_with_geometries_in_box_day_period db west south east north
        day period).isOk = false
    ∧ (get_links_geometry_roadname_speed_by_day_period db day period).isOk = false := by
  have hguard : (day < 1 ∨ day > 7) := by omega
  refine ⟨?_, ?_, ?_, ?_⟩
  · rw [get_average_speed_by_day_period,
      if_pos (by simp only [Bool.or_eq_true, decide_eq_true_eq]; omega)]
    rfl
  · rw [get_link_in_box_day_period,
      if_pos (by simp only [Bool.or_eq_true, decide_eq_true_eq]; omega)]
    rfl
  · rw [get_links_with_geometries_in_box_day_period,
      if_pos (by simp only [Bool.or_eq_true, decide_eq_true_eq]; omega)]
    rfl
  · rw [get_links_geometry_roadname_speed_by_day_period,
      if_pos (by simp only [Bool.or_eq_true, decide_eq_true_eq]; omega)]
    rfl

/-- C2 witness: at day 0 all four day-validating operations fail. -/
theorem C2_day_validation_only_witness :
    (get_average_speed_by_day_period fixtureDB 0 3).isOk = false
    ∧ (get_link_in_box_day_period fixtureDB (-409/5) (301/10) (-408/5) (303/10)
        0 3).isOk = false
    ∧ (get_links_with_geometries_in_box_day_period fixtureDB (-409/5) (301/10)
        (-408/5) (303/10) 0 3).isOk = false
    ∧ (get_links_geometry_roadname_speed_by_day_period fixtureDB 0 3).isOk = false :=
  C2_day_validation_only fixtureDB (-409/5) (301/10) (-408/5) (303/10) 0 3
    (Or.inl (by omega))

/-- C3 counterexample: on the fixture, the per-link aggregate for
(100, day 3, period 3) returns a populated result whose dict keys are exactly
link_id, day_of_week, period, average_speed, record_count, road_name and
geometry — it contains no freeflow mean and no length, contrary to the
claim. -/
theorem C3_counterexample :
    get_average_speed_by_link_day_period fixtureDB 100 3 3 =
      .found 100 3 3 42 3 (some "Main Street") (some [(-817/10, 151/5)])
    ∧ "average_freeflow" ∉
        (get_average_speed_by_link_day_period fixtureDB 100 3 3).resultKeys
    ∧ "freeflow" ∉ (get_average_speed_by_link_day_period fixtureDB 100 3 3).resultKeys
    ∧ "length" ∉ (get_average_speed_by_link_day_period fixtureDB 100 3 3).resultKeys := by
  refine ⟨fixture_link_found_eval, ?_, ?_, ?_⟩ <;>
    · rw [fixture_link_found_eval]
      simp [LinkAggResult.resultKeys]

/-- C3 (amended): for every (link_id, day, period) with at least one matching
observation, the per-link aggregate returns the first grouped row's mean
average_speed rounded to 2 decimals, the count of contributing rows, and the
road_name and geometry passed through verbatim; the result carries exactly
those seven dict keys (no freeflow mean, no length, no further metadata). -/
theorem C3_per_link_result_fields (db : DB) (link_id day period : Int)
    (h : linkMatchRows db link_id day period ≠ []) :
    ∃ k ks, linkKeys db link_id day period = k :: ks ∧
      get_average_speed_by_link_day_period db link_id day period =
        .found k.link_id k.day_of_week k.period
          (round2 (linkGroupAvg db link_id day period k))
          (linkGroupCount db link_id day period k) k.road_name k.geometry ∧
      (get_average_speed_by_link_day_period db link_id day period).resultKeys =
        ["link_id", "day_of_week", "period", "average_speed", "record_count",
         "road_name", "geometry"] := by
  have hk : linkKeys db link_id day period ≠ [] :=
    fun hnil => h (linkKeys_eq_nil.mp hnil)
  cases hK : linkKeys db link_id day period with
  | nil => exact absurd hK hk
  | cons k ks =>
    refine ⟨k, ks, rfl, ?_, ?_⟩
    · rw [get_average_speed_by_link_day_period, hK]
    · rw [get_average_speed_by_link_day_period, hK]
      rfl

/-- C3 witness: the amended theorem instantiated on the fixture at
(100, day 3, period 3). -/
theorem C3_per_link_result_fields_witness :
    ∃ k ks, linkKeys fixtureDB 100 3 3 = k :: ks ∧
      get_average_speed_by_link_day_period fixtureDB 100 3 3 =
        .found k.link_id k.day_of_week k.period
          (round2 (linkGroupAvg fixtureDB 100 3 3 k))
          (linkGroupCount fixtureDB 100 3 3 k) k.road_name k.geometry ∧
      (get_average_speed_by_link_day_period fixtureDB 100 3 3).resultKeys =
        ["link_id", "day_of_week", "period", "average_speed", "record_count",
         "road_name", "geometry"] :=
  C3_per_link_result_fields fixtureDB 100 3 3 (by simp [fixture_linkMatchRows_eval])

end UrbanSDK
